import Mathlib

/-!
Shallow embedding of `healthcare_facility_processor.py` (class
`HealthcareFacilityProcessor`) from the AWS-Data-pipeline-creation repository.

JSON values are modelled by the inductive `JVal`; Python dicts are association
lists in insertion order.  The two external collaborators of the core logic are
modelled as explicit parameters:

* `dateutil.parser.parse` (lenient date parsing) is a parameter
  `parseDate : String → Option Int`, returning the parsed calendar date as a
  day ordinal (`none` models a parse exception);
* `json.loads` is a parameter `loads : String → Except String JVal`
  (`Except.error` models `json.JSONDecodeError`);
* `datetime.now().date()` is a parameter `today : Int` (day ordinal), and
  `datetime.now().isoformat()` / timestamp file suffixes are string parameters.

The S3 transport itself (`get_object` / `put_object`) is out of scope per the
spec; `read_json_from_s3` is modelled on the decoded body content, and
`write_json_to_s3` returns the ordered list of objects it stored together with
an optional propagated exception.
-/

/-- A JSON value, as produced by Python's `json.loads`.  Objects keep their
fields in insertion order. -/
inductive JVal where
  | str (s : String)
  | num (n : Int)
  | bool (b : Bool)
  | null
  | arr (elems : List JVal)
  | obj (fields : List (String × JVal))

/-- Python `d.get(k, default)` on a value: only dicts have `.get`; any other
receiver raises `AttributeError` (modelled as `Except.error`). -/
def pyGet (v : JVal) (k : String) (dflt : JVal) : Except String JVal :=
  match v with
  | JVal.obj fields => Except.ok ((fields.lookup k).getD dflt)
  | _ => Except.error "AttributeError"

/-- Python truthiness of a JSON value (`if not accreditations:`). -/
def truthy : JVal → Bool
  | JVal.str s => !(s == "")
  | JVal.num n => !(n == 0)
  | JVal.bool b => b
  | JVal.null => false
  | JVal.arr elems => !elems.isEmpty
  | JVal.obj fields => !fields.isEmpty

/-- Python iteration `for x in v`: lists yield elements, strings yield
one-character strings, dicts yield their keys; other values raise
`TypeError`. -/
def pyIter : JVal → Except String (List JVal)
  | JVal.arr elems => Except.ok elems
  | JVal.str s => Except.ok (s.data.map (fun c => JVal.str (String.mk [c])))
  | JVal.obj fields => Except.ok (fields.map (fun kv => JVal.str kv.1))
  | _ => Except.error "TypeError"

/-- Python dict assignment `d[k] = v`: overwrite in place when the key exists,
otherwise append at the end (insertion order). -/
def setItem (fields : List (String × JVal)) (k : String) (v : JVal) :
    List (String × JVal) :=
  if fields.any (fun kv => kv.1 == k) then
    fields.map (fun kv => if kv.1 == k then (k, v) else kv)
  else fields ++ [(k, v)]

/-- The default `months_threshold` of `is_expiring_soon`. -/
def months_threshold_default : Int := 6

/-- `HealthcareFacilityProcessor.is_expiring_soon` (lines 98-119): parse the
date string; on success return `current_date <= expiry_date <= threshold_date`
with `threshold_date = today + months_threshold * 30` days; any exception
(in particular a date-parse failure) is caught and yields `False`. -/
def is_expiring_soon (parseDate : String → Option Int) (today : Int)
    (expiry_date_str : String) (months_threshold : Int) : Bool :=
  match parseDate expiry_date_str with
  | some expiry_date =>
      decide (today ≤ expiry_date ∧ expiry_date ≤ today + months_threshold * 30)
  | none => false

/-- `is_expiring_soon` as invoked from the filter on an arbitrary JSON value:
`dateutil.parser.parse` raises on a non-string argument, which the
`try/except` inside `is_expiring_soon` turns into `False`. -/
def is_expiring_soonJ (parseDate : String → Option Int) (today : Int)
    (v : JVal) (months_threshold : Int) : Bool :=
  match v with
  | JVal.str s => is_expiring_soon parseDate today s months_threshold
  | _ => false

/-- The accreditation loop of `filter_expiring_facilities` (lines 146-153):
walk the accreditations in order, read `valid_until` (default `''`), and for
each one that `is_expiring_soon` accepts, append `{'body': ..., 'expiry': ...}`.
A `.get` on a non-dict accreditation raises, aborting this facility. -/
def collectExpiring (parseDate : String → Option Int) (today : Int) :
    List JVal → Except String (List JVal)
  | [] => Except.ok []
  | a :: rest =>
      match pyGet a "valid_until" (JVal.str "") with
      | Except.error e => Except.error e
      | Except.ok expiry_date =>
          if is_expiring_soonJ parseDate today expiry_date months_threshold_default then
            match pyGet a "accreditation_body" (JVal.str "") with
            | Except.error e => Except.error e
            | Except.ok body =>
                match collectExpiring parseDate today rest with
                | Except.error e => Except.error e
                | Except.ok tail =>
                    Except.ok (JVal.obj [("body", body), ("expiry", expiry_date)] :: tail)
          else collectExpiring parseDate today rest

/-- The `_processing_metadata` block attached to a filtered facility
(lines 158-162). -/
def processingMetadata (nowIso : String) (expiring : List JVal)
    (total : Int) : JVal :=
  JVal.obj [("processed_date", JVal.str nowIso),
            ("expiring_accreditations", JVal.arr expiring),
            ("total_accreditations", JVal.num total)]

/-- The body of the per-facility `try:` block of `filter_expiring_facilities`
(lines 134-165): `Except.ok none` means the facility was examined and skipped,
`Except.ok (some c)` means the annotated copy `c` is appended,
`Except.error` models an exception reaching the per-facility handler.
A non-dict facility raises at `facility.get` (`AttributeError`). -/
def processFacility (parseDate : String → Option Int) (today : Int)
    (nowIso : String) (facility : JVal) : Except String (Option JVal) :=
  match facility with
  | JVal.obj fields =>
      let accreditations := (fields.lookup "accreditations").getD (JVal.arr [])
      if truthy accreditations then
        match pyIter accreditations with
        | Except.error e => Except.error e
        | Except.ok accList =>
            match collectExpiring parseDate today accList with
            | Except.error e => Except.error e
            | Except.ok expiring =>
                if expiring.isEmpty then Except.ok none
                else
                  Except.ok (some (JVal.obj (setItem fields "_processing_metadata"
                    (processingMetadata nowIso expiring accList.length))))
      else Except.ok none
  | _ => Except.error "AttributeError"

/-- `HealthcareFacilityProcessor.filter_expiring_facilities` (lines 121-172):
process each facility independently; an exception in one facility is caught
and the loop continues with the rest. -/
def filter_expiring_facilities (parseDate : String → Option Int) (today : Int)
    (nowIso : String) : List JVal → List JVal
  | [] => []
  | facility :: rest =>
      match processFacility parseDate today nowIso facility with
      | Except.ok (some c) =>
          c :: filter_expiring_facilities parseDate today nowIso rest
      | _ => filter_expiring_facilities parseDate today nowIso rest

/-- Whether an accreditation record qualifies as expiring soon: its
`valid_until` value (default `''`) passes `is_expiring_soon`. -/
def accQualifies (parseDate : String → Option Int) (today : Int)
    (a : JVal) : Bool :=
  match a with
  | JVal.obj g =>
      is_expiring_soonJ parseDate today ((g.lookup "valid_until").getD (JVal.str ""))
        months_threshold_default
  | _ => false

/-- The `{body, expiry}` pair recorded for a qualifying accreditation. -/
def accPair : JVal → JVal
  | JVal.obj g =>
      JVal.obj [("body", (g.lookup "accreditation_body").getD (JVal.str "")),
                ("expiry", (g.lookup "valid_until").getD (JVal.str ""))]
  | v => JVal.obj [("body", JVal.str ""), ("expiry", v)]

/-- The whitespace characters removed by Python's `str.strip()`. -/
def pyIsSpace (c : Char) : Bool :=
  c == ' ' || c == '\t' || c == '\n' || c == '\r' || c == '\x0b' || c == '\x0c'

/-- Drop leading whitespace from a character list. -/
def dropLeadingSpace : List Char → List Char
  | [] => []
  | c :: cs => if pyIsSpace c then dropLeadingSpace cs else c :: cs

/-- Python `s.strip()`: remove leading and trailing whitespace. -/
def pyStrip (s : String) : String :=
  String.mk (List.reverse (dropLeadingSpace (List.reverse (dropLeadingSpace s.data))))

/-- Split a character list on newline characters (Python `s.split('\n')`):
always at least one (possibly empty) segment. -/
def splitNl : List Char → List (List Char)
  | [] => [[]]
  | c :: cs =>
      if c = '\n' then [] :: splitNl cs
      else
        match splitNl cs with
        | [] => [[c]]
        | l :: ls => (c :: l) :: ls

/-- Python `s.split('\n')` on a string. -/
def pySplitLines (s : String) : List String :=
  (splitNl s.data).map String.mk

/-- The JSON-decoding core of `HealthcareFacilityProcessor.read_json_from_s3`
(lines 70-89), applied to the decoded body `content`: first try
`json.loads(content)` whole and return whatever it produced; only on a decode
error fall back to JSON Lines, splitting the stripped content on newlines,
decoding each non-blank line and silently skipping lines that fail. -/
def read_json_from_s3 (loads : String → Except String JVal)
    (content : String) : JVal :=
  match loads content with
  | Except.ok v => v
  | Except.error _ =>
      JVal.arr ((pySplitLines (pyStrip content)).filterMap (fun line =>
        if pyStrip line = "" then none
        else
          match loads line with
          | Except.ok facility => some facility
          | Except.error _ => none))

/-- Python `len(v)`: lists, strings and dicts are sized; other values raise
`TypeError`. -/
def pyLen : JVal → Except String Int
  | JVal.arr elems => Except.ok elems.length
  | JVal.str s => Except.ok s.length
  | JVal.obj fields => Except.ok fields.length
  | _ => Except.error "TypeError"

/-- One entry of `facilities_summary` (lines 205-209): direct subscripting
`facility['facility_id']` / `facility['facility_name']` (KeyError when absent,
TypeError on a non-dict), then
`len(facility.get('_processing_metadata', {}).get('expiring_accreditations', []))`. -/
def summaryEntry (facility : JVal) : Except String JVal :=
  match facility with
  | JVal.obj fields =>
      match fields.lookup "facility_id" with
      | none => Except.error "KeyError"
      | some fid =>
          match fields.lookup "facility_name" with
          | none => Except.error "KeyError"
          | some fname =>
              let md := (fields.lookup "_processing_metadata").getD (JVal.obj [])
              match pyGet md "expiring_accreditations" (JVal.arr []) with
              | Except.error e => Except.error e
              | Except.ok expiring =>
                  match pyLen expiring with
                  | Except.error e => Except.error e
                  | Except.ok cnt =>
                      Except.ok (JVal.obj
                        [("facility_id", fid), ("facility_name", fname),
                         ("expiring_count", JVal.num cnt)])
  | _ => Except.error "TypeError"

/-- The `facilities_summary` list comprehension (lines 204-211): evaluated
left to right, the first raising element aborts the whole comprehension. -/
def summaryEntries : List JVal → Except String (List JVal)
  | [] => Except.ok []
  | facility :: rest =>
      match summaryEntry facility with
      | Except.error e => Except.error e
      | Except.ok entry =>
          match summaryEntries rest with
          | Except.error e => Except.error e
          | Except.ok tail => Except.ok (entry :: tail)

/-- The processing-summary object built by `write_json_to_s3`
(lines 199-212); fails when any element of `data` makes `summaryEntry` raise. -/
def buildSummary (nowIso output_location : String) (data : List JVal) :
    Except String JVal :=
  match summaryEntries data with
  | Except.error e => Except.error e
  | Except.ok entries => Except.ok (JVal.obj
    [("processing_date", JVal.str nowIso),
     ("total_facilities_processed", JVal.num data.length),
     ("output_location", JVal.str output_location),
     ("filter_criteria", JVal.str "Accreditations expiring within 6 months"),
     ("facilities_summary", JVal.arr entries)])

/-- Result of a writer invocation: the ordered list of `(key, payload)`
objects actually stored via `put_object`, and the exception (if any) that
propagated to the caller. -/
structure WriteResult where
  writes : List (String × JVal)
  err : Option String

/-- `HealthcareFacilityProcessor.write_json_to_s3` (lines 174-229): store the
data payload under `output_key ++ output_filename`, then build the summary and
store it under `processing_summary_<ts>.json`.  An exception while building
the summary happens after the first `put_object` and propagates, leaving only
the data payload stored. -/
def write_json_to_s3 (output_bucket output_key nowIso ts : String)
    (data : List JVal) (output_filename : String) : WriteResult :=
  let outKey := output_key ++ output_filename
  let firstWrite := (outKey, JVal.arr data)
  match buildSummary nowIso ("s3://" ++ output_bucket ++ "/" ++ outKey) data with
  | Except.ok summary =>
      ⟨[firstWrite,
        (output_key ++ "processing_summary_" ++ ts ++ ".json", summary)], none⟩
  | Except.error e => ⟨[firstWrite], some e⟩

/-- The placeholder payload written when no facility qualifies
(lines 301-305). -/
def empty_result (nowIso : String) : JVal :=
  JVal.obj [("message", JVal.str "No facilities with expiring accreditations found"),
            ("processing_date", JVal.str nowIso),
            ("facilities", JVal.arr [])]

/-- The per-file loop of `process_all_files` (lines 275-289): each input is
the outcome of `read_json_from_s3` for one listed file (`Except.error` models
a read exception); the parsed value is iterated by
`filter_expiring_facilities`'s `for` loop, and any per-file exception (failed
read, non-iterable content) skips that file. -/
def aggregate_filtered (parseDate : String → Option Int) (today : Int)
    (nowIso : String) (inputs : List (Except String JVal)) : List JVal :=
  inputs.foldl (fun acc r =>
    match r with
    | Except.error _ => acc
    | Except.ok v =>
        match pyIter v with
        | Except.error _ => acc
        | Except.ok facilities =>
            acc ++ filter_expiring_facilities parseDate today nowIso facilities) []

/-- `HealthcareFacilityProcessor.process_all_files` (lines 258-310): with no
input files, return without writing; otherwise aggregate the filtered
facilities over all files and write either the filtered payload (non-empty
aggregate) or a single-element placeholder payload (empty aggregate). -/
def process_all_files (parseDate : String → Option Int) (today : Int)
    (nowIso ts output_bucket output_key : String)
    (inputs : List (Except String JVal)) : WriteResult :=
  match inputs with
  | [] => ⟨[], none⟩
  | _ :: _ =>
      let all_filtered := aggregate_filtered parseDate today nowIso inputs
      if all_filtered.isEmpty then
        write_json_to_s3 output_bucket output_key nowIso ts
          [empty_result nowIso] ("no_expiring_facilities_" ++ ts ++ ".json")
      else
        write_json_to_s3 output_bucket output_key nowIso ts
          all_filtered ("expiring_facilities_" ++ ts ++ ".json")

/-- A facility element of a writer payload that makes the summary
comprehension raise: not a dict at all, or lacking `facility_id` or
`facility_name`. -/
def lacksIdOrName : JVal → Bool
  | JVal.obj fields =>
      ((fields.lookup "facility_id").isNone ||
        (fields.lookup "facility_name").isNone)
  | _ => true

/-- A fixed concrete JSON decoder used to instantiate witnesses: it accepts
exactly the line "1" (the JSON number 1) and rejects everything else. -/
def loadsDemo (s : String) : Except String JVal :=
  if s = "1" then Except.ok (JVal.num 1) else Except.error "Expecting value"

/-- A fixed concrete date parser used to instantiate witnesses: it accepts
exactly the string "2026-12-01", as day ordinal 50. -/
def parseDemo (s : String) : Option Int :=
  if s = "2026-12-01" then some 50 else none

/-- A concrete well-formed facility used in witnesses: one accreditation,
expiring on the demo date. -/
def demoFields : List (String × JVal) :=
  [("facility_id", JVal.str "FAC001"),
   ("facility_name", JVal.str "Test Hospital"),
   ("accreditations",
     JVal.arr [JVal.obj [("accreditation_body", JVal.str "Joint Commission"),
                         ("valid_until", JVal.str "2026-12-01")]])]

/-- A concrete facility that already carries a `_processing_metadata` field
before filtering, and has one qualifying accreditation. -/
def preMetaFields : List (String × JVal) :=
  [("facility_id", JVal.str "FAC008"),
   ("_processing_metadata", JVal.num 0),
   ("accreditations",
     JVal.arr [JVal.obj [("valid_until", JVal.str "2026-12-01")]])]

/-- What `filter_expiring_facilities` produces for `preMetaFields`: the
pre-existing `_processing_metadata` value is overwritten in place. -/
def preMetaOut : List (String × JVal) :=
  [("facility_id", JVal.str "FAC008"),
   ("_processing_metadata",
     processingMetadata "2026-10-12T00:00:00"
       [JVal.obj [("body", JVal.str ""), ("expiry", JVal.str "2026-12-01")]] 1),
   ("accreditations",
     JVal.arr [JVal.obj [("valid_until", JVal.str "2026-12-01")]])]

/-- C1: for every date string that parses to a calendar date `d`,
`is_expiring_soon` returns `true` iff `today ≤ d ≤ today + months_threshold*30`
days (the fixed 30-day-per-month approximation); in particular a date strictly
before today or strictly after that bound yields `false`. -/
theorem is_expiring_soon_iff_in_window (parseDate : String → Option Int)
    (today d months_threshold : Int) (s : String)
    (h : parseDate s = some d) :
    is_expiring_soon parseDate today s months_threshold = true ↔
      (today ≤ d ∧ d ≤ today + months_threshold * 30) := by
  simp [is_expiring_soon, h]

theorem is_expiring_soon_iff_in_window_witness :
    (is_expiring_soon (fun s => if s = "2026-12-01" then some 50 else none) 0
        "2026-12-01" months_threshold_default = true ↔
      ((0 : Int) ≤ 50 ∧ (50 : Int) ≤ 0 + months_threshold_default * 30)) ∧
    is_expiring_soon (fun s => if s = "2026-12-01" then some 50 else none) 0
        "2026-12-01" months_threshold_default = true := by
  constructor
  · exact is_expiring_soon_iff_in_window
      (fun s => if s = "2026-12-01" then some 50 else none) 0 50
      months_threshold_default "2026-12-01" (by decide)
  · decide

/-- C6: for every date string the date parser rejects (including the empty
string substituted for a missing `valid_until`), `is_expiring_soon` returns
`false`; the exception is caught, never propagated. -/
theorem is_expiring_soon_unparseable_false (parseDate : String → Option Int)
    (today months_threshold : Int) (s : String)
    (h : parseDate s = none) :
    is_expiring_soon parseDate today s months_threshold = false := by
  simp [is_expiring_soon, h]

theorem is_expiring_soon_unparseable_false_witness :
    is_expiring_soon (fun s => if s = "2026-12-01" then some 50 else none) 0
      "" months_threshold_default = false :=
  is_expiring_soon_unparseable_false
    (fun s => if s = "2026-12-01" then some 50 else none) 0
    months_threshold_default "" (by decide)

theorem filter_expiring_facilities_append (parseDate : String → Option Int)
    (today : Int) (nowIso : String) (xs ys : List JVal) :
    filter_expiring_facilities parseDate today nowIso (xs ++ ys) =
      filter_expiring_facilities parseDate today nowIso xs ++
        filter_expiring_facilities parseDate today nowIso ys := by
  induction xs with
  | nil => rfl
  | cons x xs ih =>
      simp only [List.cons_append, filter_expiring_facilities]
      cases processFacility parseDate today nowIso x with
      | error e => simpa using ih
      | ok o => cases o <;> simp [ih]

/-- C7: a facility record whose `accreditations` sequence is empty or missing
never appears in the output of `filter_expiring_facilities`: the filter of any
sequence containing it is the filter of the surrounding facilities alone. -/
theorem filter_excludes_empty_accreditations (parseDate : String → Option Int)
    (today : Int) (nowIso : String) (pre post : List JVal)
    (fields : List (String × JVal))
    (h : fields.lookup "accreditations" = none ∨
         fields.lookup "accreditations" = some (JVal.arr [])) :
    filter_expiring_facilities parseDate today nowIso
        (pre ++ JVal.obj fields :: post) =
      filter_expiring_facilities parseDate today nowIso pre ++
        filter_expiring_facilities parseDate today nowIso post := by
  have hp : processFacility parseDate today nowIso (JVal.obj fields) =
      Except.ok none := by
    rcases h with h | h <;> simp [processFacility, h, truthy]
  rw [filter_expiring_facilities_append]
  simp only [filter_expiring_facilities, hp]

theorem filter_excludes_empty_accreditations_witness :
    filter_expiring_facilities parseDemo 0 "2026-10-12T00:00:00"
        ([] ++ JVal.obj [("facility_id", JVal.str "FAC009"),
                         ("accreditations", JVal.arr [])] :: [JVal.obj demoFields]) =
      filter_expiring_facilities parseDemo 0 "2026-10-12T00:00:00" [] ++
        filter_expiring_facilities parseDemo 0 "2026-10-12T00:00:00"
          [JVal.obj demoFields] :=
  filter_excludes_empty_accreditations parseDemo 0 "2026-10-12T00:00:00"
    [] [JVal.obj demoFields]
    [("facility_id", JVal.str "FAC009"), ("accreditations", JVal.arr [])]
    (Or.inr rfl)

/-- C5: an exception while processing one facility is caught by the
per-facility handler: `filter_expiring_facilities` returns normally and every
facility before and after the failing one is still processed. -/
theorem filter_continues_after_error (parseDate : String → Option Int)
    (today : Int) (nowIso e : String) (pre post : List JVal) (facility : JVal)
    (h : processFacility parseDate today nowIso facility = Except.error e) :
    filter_expiring_facilities parseDate today nowIso
        (pre ++ facility :: post) =
      filter_expiring_facilities parseDate today nowIso pre ++
        filter_expiring_facilities parseDate today nowIso post := by
  rw [filter_expiring_facilities_append]
  simp only [filter_expiring_facilities, h]

theorem filter_continues_after_error_witness :
    processFacility parseDemo 0 "2026-10-12T00:00:00" (JVal.num 0) =
        Except.error "AttributeError" ∧
    filter_expiring_facilities parseDemo 0 "2026-10-12T00:00:00"
        ([] ++ JVal.num 0 :: [JVal.obj demoFields]) =
      filter_expiring_facilities parseDemo 0 "2026-10-12T00:00:00" [] ++
        filter_expiring_facilities parseDemo 0 "2026-10-12T00:00:00"
          [JVal.obj demoFields] :=
  ⟨rfl, filter_continues_after_error parseDemo 0 "2026-10-12T00:00:00"
    "AttributeError" [] [JVal.obj demoFields] (JVal.num 0) rfl⟩

theorem collectExpiring_eq (parseDate : String → Option Int) (today : Int)
    (accs : List JVal) (hobj : ∀ a ∈ accs, ∃ g, a = JVal.obj g) :
    collectExpiring parseDate today accs =
      Except.ok ((accs.filter (accQualifies parseDate today)).map accPair) := by
  induction accs with
  | nil => rfl
  | cons a rest ih =>
      obtain ⟨g, rfl⟩ := hobj a (List.mem_cons_self a rest)
      have ih' := ih (fun b hb => hobj b (List.mem_cons_of_mem _ hb))
      cases hq : is_expiring_soonJ parseDate today
          ((List.lookup "valid_until" g).getD (JVal.str ""))
          months_threshold_default with
      | true =>
          have hq' : accQualifies parseDate today (JVal.obj g) = true := hq
          simp [collectExpiring, pyGet, hq, ih', List.filter_cons, hq', accPair]
      | false =>
          have hq' : accQualifies parseDate today (JVal.obj g) = false := hq
          simp [collectExpiring, pyGet, hq, ih', List.filter_cons, hq']

/-- C2: a facility record (a dict whose `accreditations` is a list of
accreditation dicts) with at least one qualifying accreditation is included by
`filter_expiring_facilities`, annotated with `_processing_metadata` whose
`expiring_accreditations` are exactly the qualifying accreditations, as
`{body, expiry}` pairs in their original encounter order, and whose
`total_accreditations` is the length of the original accreditation list. -/
theorem filter_includes_qualifying (parseDate : String → Option Int)
    (today : Int) (nowIso : String) (pre post : List JVal)
    (fields : List (String × JVal)) (accs : List JVal)
    (hacc : fields.lookup "accreditations" = some (JVal.arr accs))
    (hobj : ∀ a ∈ accs, ∃ g, a = JVal.obj g)
    (hex : ∃ a ∈ accs, accQualifies parseDate today a = true) :
    filter_expiring_facilities parseDate today nowIso
        (pre ++ JVal.obj fields :: post) =
      filter_expiring_facilities parseDate today nowIso pre ++
        JVal.obj (setItem fields "_processing_metadata"
          (processingMetadata nowIso
            ((accs.filter (accQualifies parseDate today)).map accPair)
            accs.length)) ::
        filter_expiring_facilities parseDate today nowIso post := by
  obtain ⟨a, ha, hqa⟩ := hex
  have hne : accs ≠ [] := List.ne_nil_of_mem ha
  have hfil : a ∈ accs.filter (accQualifies parseDate today) :=
    List.mem_filter.mpr ⟨ha, hqa⟩
  have hfilne : accs.filter (accQualifies parseDate today) ≠ [] :=
    List.ne_nil_of_mem hfil
  have hfe : ((accs.filter (accQualifies parseDate today)).map accPair).isEmpty
      = false := by
    cases hcase : accs.filter (accQualifies parseDate today) with
    | nil => exact absurd hcase hfilne
    | cons b bs => rfl
  have ht : truthy (JVal.arr accs) = true := by
    cases accs with
    | nil => exact absurd rfl hne
    | cons x xs => rfl
  have hcoll := collectExpiring_eq parseDate today accs hobj
  have hp : processFacility parseDate today nowIso (JVal.obj fields) =
      Except.ok (some (JVal.obj (setItem fields "_processing_metadata"
        (processingMetadata nowIso
          ((accs.filter (accQualifies parseDate today)).map accPair)
          accs.length)))) := by
    simp [processFacility, hacc, ht, pyIter, hcoll, hfe]
  rw [filter_expiring_facilities_append]
  simp only [filter_expiring_facilities, hp]

theorem filter_includes_qualifying_witness :
    filter_expiring_facilities parseDemo 0 "2026-10-12T00:00:00"
        ([] ++ JVal.obj demoFields :: []) =
      filter_expiring_facilities parseDemo 0 "2026-10-12T00:00:00" [] ++
        JVal.obj (setItem demoFields "_processing_metadata"
          (processingMetadata "2026-10-12T00:00:00"
            (([JVal.obj [("accreditation_body", JVal.str "Joint Commission"),
                         ("valid_until", JVal.str "2026-12-01")]].filter
                (accQualifies parseDemo 0)).map accPair)
            ([JVal.obj [("accreditation_body", JVal.str "Joint Commission"),
                        ("valid_until", JVal.str "2026-12-01")]] : List JVal).length)) ::
        filter_expiring_facilities parseDemo 0 "2026-10-12T00:00:00" [] :=
  filter_includes_qualifying parseDemo 0 "2026-10-12T00:00:00" [] [] demoFields
    [JVal.obj [("accreditation_body", JVal.str "Joint Commission"),
               ("valid_until", JVal.str "2026-12-01")]]
    rfl
    (fun a ha => ⟨[("accreditation_body", JVal.str "Joint Commission"),
                   ("valid_until", JVal.str "2026-12-01")],
      by simpa using ha⟩)
    ⟨JVal.obj [("accreditation_body", JVal.str "Joint Commission"),
               ("valid_until", JVal.str "2026-12-01")],
      List.mem_singleton.mpr rfl, by rfl⟩

theorem lookup_map_overwrite_ne (k k' : String) (v : JVal)
    (fields : List (String × JVal)) (h : k' ≠ k) :
    List.lookup k' (fields.map (fun kv => if kv.1 == k then (k, v) else kv)) =
      List.lookup k' fields := by
  induction fields with
  | nil => rfl
  | cons p rest ih =>
      obtain ⟨k₁, v₁⟩ := p
      by_cases h1 : k₁ = k
      · subst h1
        simp only [List.map_cons, beq_self_eq_true, if_true,
          List.lookup_cons, beq_eq_false_iff_ne.mpr h]
        simpa using ih
      · by_cases hkk : k' = k₁
        · subst hkk
          simp [List.lookup_cons, h1]
        · simp only [List.map_cons, List.lookup_cons,
            beq_eq_false_iff_ne.mpr h1, Bool.false_eq_true, if_false,
            beq_eq_false_iff_ne.mpr hkk]
          simpa using ih

theorem lookup_append_single_ne (k k' : String) (v : JVal)
    (fields : List (String × JVal)) (h : k' ≠ k) :
    List.lookup k' (fields ++ [(k, v)]) = List.lookup k' fields := by
  induction fields with
  | nil => simp [List.lookup_cons, beq_eq_false_iff_ne.mpr h]
  | cons p rest ih =>
      obtain ⟨k₁, v₁⟩ := p
      by_cases hkk : k' = k₁
      · subst hkk
        simp [List.lookup_cons]
      · simp [List.lookup_cons, beq_eq_false_iff_ne.mpr hkk, ih]

theorem lookup_setItem_ne (fields : List (String × JVal)) (k k' : String)
    (v : JVal) (h : k' ≠ k) :
    List.lookup k' (setItem fields k v) = List.lookup k' fields := by
  unfold setItem
  by_cases hany : fields.any (fun kv => kv.1 == k) = true
  · simp only [hany, if_true]
    exact lookup_map_overwrite_ne k k' v fields h
  · simp only [Bool.not_eq_true] at hany
    simp only [hany, Bool.false_eq_true, if_false]
    exact lookup_append_single_ne k k' v fields h

theorem lookup_map_overwrite_self (k : String) (v : JVal)
    (fields : List (String × JVal))
    (hany : fields.any (fun kv => kv.1 == k) = true) :
    List.lookup k (fields.map (fun kv => if kv.1 == k then (k, v) else kv)) =
      some v := by
  induction fields with
  | nil => simp at hany
  | cons p rest ih =>
      obtain ⟨k₁, v₁⟩ := p
      by_cases h1 : k₁ = k
      · subst h1
        simp [List.lookup_cons]
      · have hany' : rest.any (fun kv => kv.1 == k) = true := by
          simpa [List.any_cons, h1] using hany
        simp only [List.map_cons, List.lookup_cons,
          beq_eq_false_iff_ne.mpr h1, Bool.false_eq_true, if_false,
          beq_eq_false_iff_ne.mpr (Ne.symm h1)]
        simpa using ih hany'

theorem lookup_setItem_self (fields : List (String × JVal)) (k : String)
    (v : JVal) :
    List.lookup k (setItem fields k v) = some v := by
  unfold setItem
  by_cases hany : fields.any (fun kv => kv.1 == k) = true
  · simp only [hany, if_true]
    exact lookup_map_overwrite_self k v fields hany
  · simp only [Bool.not_eq_true] at hany
    simp only [hany, Bool.false_eq_true, if_false]
    induction fields with
    | nil => simp [List.lookup_cons]
    | cons p rest ih =>
        obtain ⟨k₁, v₁⟩ := p
        have h1 : ¬ k₁ = k := by
          intro hc
          simp [List.any_cons, hc] at hany
        have hany' : rest.any (fun kv => kv.1 == k) = false := by
          simpa [List.any_cons, h1] using hany
        simp [List.lookup_cons, beq_eq_false_iff_ne.mpr (Ne.symm h1), ih hany']

/-- C8 (amended): every `FilteredFacility` is its source record with the
`_processing_metadata` field set: lookups of every other key are unchanged,
and `_processing_metadata` is the freshly built metadata block, overwriting in
place any pre-existing `_processing_metadata` field of the source; the input
record itself is left untouched (filtering only builds a copy). -/
theorem filtered_facility_preserves_fields (parseDate : String → Option Int)
    (today : Int) (nowIso : String) (fields : List (String × JVal)) (o : JVal)
    (h : processFacility parseDate today nowIso (JVal.obj fields) =
      Except.ok (some o)) :
    ∃ md, o = JVal.obj (setItem fields "_processing_metadata" md) ∧
      (∀ k, k ≠ "_processing_metadata" →
        List.lookup k (setItem fields "_processing_metadata" md) =
          List.lookup k fields) ∧
      List.lookup "_processing_metadata"
        (setItem fields "_processing_metadata" md) = some md := by
  simp only [processFacility] at h
  split at h
  · split at h
    · exact absurd h (by simp)
    · split at h
      · exact absurd h (by simp)
      · split at h
        · exact absurd h (by simp)
        · simp only [Except.ok.injEq, Option.some.injEq] at h
          subst h
          exact ⟨_, rfl,
            fun k hk => lookup_setItem_ne fields _ k _ hk,
            lookup_setItem_self fields _ _⟩
  · exact absurd h (by simp)

theorem filtered_facility_preserves_fields_witness :
    ∃ md,
      JVal.obj (setItem demoFields "_processing_metadata"
        (processingMetadata "2026-10-12T00:00:00"
          [JVal.obj [("body", JVal.str "Joint Commission"),
                     ("expiry", JVal.str "2026-12-01")]] 1)) =
        JVal.obj (setItem demoFields "_processing_metadata" md) ∧
      (∀ k, k ≠ "_processing_metadata" →
        List.lookup k (setItem demoFields "_processing_metadata" md) =
          List.lookup k demoFields) ∧
      List.lookup "_processing_metadata"
        (setItem demoFields "_processing_metadata" md) = some md :=
  filtered_facility_preserves_fields parseDemo 0 "2026-10-12T00:00:00"
    demoFields
    (JVal.obj (setItem demoFields "_processing_metadata"
      (processingMetadata "2026-10-12T00:00:00"
        [JVal.obj [("body", JVal.str "Joint Commission"),
                   ("expiry", JVal.str "2026-12-01")]] 1)))
    rfl

/-- C8 (counterexample to the claim as stated): for a source facility that
already carries a `_processing_metadata` field, the produced
`FilteredFacility` does not retain that original field unchanged — it is
overwritten, so the output is not "all original fields plus an added
`_processing_metadata`". -/
theorem filtered_facility_overwrites_existing_metadata :
    filter_expiring_facilities parseDemo 0 "2026-10-12T00:00:00"
        [JVal.obj preMetaFields] = [JVal.obj preMetaOut] ∧
    ("_processing_metadata", JVal.num 0) ∈ preMetaFields ∧
    ("_processing_metadata", JVal.num 0) ∉ preMetaOut := by
  refine ⟨rfl, by simp [preMetaFields], ?_⟩
  simp [preMetaOut, processingMetadata]

/-- C9: whatever value `json.loads` decodes the whole content to is returned
directly — here a non-array value — and the JSON-Lines fallback is never
attempted: the parser does not check that the whole-content decode produced
an array of records. -/
theorem read_json_from_s3_returns_nonarray_decode
    (loads : String → Except String JVal) (content : String) (v : JVal)
    (h : loads content = Except.ok v) (_hv : ∀ elems, v ≠ JVal.arr elems) :
    read_json_from_s3 loads content = v := by
  simp [read_json_from_s3, h]

theorem read_json_from_s3_returns_nonarray_decode_witness :
    read_json_from_s3
        (fun _ => Except.ok (JVal.obj [("facility_id", JVal.str "FAC001")]))
        "dummy content" =
      JVal.obj [("facility_id", JVal.str "FAC001")] :=
  read_json_from_s3_returns_nonarray_decode
    (fun _ => Except.ok (JVal.obj [("facility_id", JVal.str "FAC001")]))
    "dummy content" (JVal.obj [("facility_id", JVal.str "FAC001")]) rfl
    (fun _ hc => JVal.noConfusion hc)

theorem filterMap_decode_length (loads : String → Except String JVal)
    (lines : List String)
    (h : ∀ l ∈ lines, pyStrip l ≠ "" ∧ ∃ v, loads l = Except.ok v) :
    (lines.filterMap (fun line =>
        if pyStrip line = "" then none
        else
          match loads line with
          | Except.ok facility => some facility
          | Except.error _ => none)).length = lines.length := by
  induction lines with
  | nil => rfl
  | cons l rest ih =>
      obtain ⟨hnb, v, hv⟩ := h l (List.mem_cons_self l rest)
      have ih' := ih (fun x hx => h x (List.mem_cons_of_mem _ hx))
      simp [List.filterMap_cons, hnb, hv, ih']

theorem filterMap_decode_drops_bad (loads : String → Except String JVal)
    (bad : String) (hbad : ∀ v, loads bad ≠ Except.ok v) :
    (if pyStrip bad = "" then none
      else
        match loads bad with
        | Except.ok facility => some facility
        | Except.error _ => none) = (none : Option JVal) := by
  by_cases hb : pyStrip bad = ""
  · simp [hb]
  · cases hl : loads bad with
    | ok v => exact absurd hl (hbad v)
    | error e => simp [hb, hl]

/-- C4: the record parser first tries the whole content as one JSON value and
only on a decode failure falls back to per-line decoding that skips bad
lines.  (1) A decoded JSON array of N facilities yields exactly those N
records; (2) on whole-content failure, N well-formed non-blank JSON lines
yield exactly N records; (3) on whole-content failure, N well-formed lines
plus one malformed line yield exactly N records, the malformed line
dropped. -/
theorem read_json_from_s3_counts (loads : String → Except String JVal)
    (content e : String) :
    (∀ facilities : List JVal,
        loads content = Except.ok (JVal.arr facilities) →
        read_json_from_s3 loads content = JVal.arr facilities) ∧
    (loads content = Except.error e →
      ∀ lines : List String, pySplitLines (pyStrip content) = lines →
        (∀ l ∈ lines, pyStrip l ≠ "" ∧ ∃ v, loads l = Except.ok v) →
        ∃ vs : List JVal, read_json_from_s3 loads content = JVal.arr vs ∧
          vs.length = lines.length) ∧
    (loads content = Except.error e →
      ∀ (good₁ good₂ : List String) (bad : String),
        pySplitLines (pyStrip content) = good₁ ++ bad :: good₂ →
        (∀ l ∈ good₁ ++ good₂, pyStrip l ≠ "" ∧ ∃ v, loads l = Except.ok v) →
        (∀ v, loads bad ≠ Except.ok v) →
        ∃ vs : List JVal, read_json_from_s3 loads content = JVal.arr vs ∧
          vs.length = good₁.length + good₂.length) := by
  refine ⟨?_, ?_, ?_⟩
  · intro facilities h
    simp [read_json_from_s3, h]
  · intro he lines hsplit hall
    refine ⟨(pySplitLines (pyStrip content)).filterMap (fun line =>
        if pyStrip line = "" then none
        else
          match loads line with
          | Except.ok facility => some facility
          | Except.error _ => none), by simp [read_json_from_s3, he], ?_⟩
    rw [hsplit]
    exact filterMap_decode_length loads lines hall
  · intro he good₁ good₂ bad hsplit hall hbad
    refine ⟨(pySplitLines (pyStrip content)).filterMap (fun line =>
        if pyStrip line = "" then none
        else
          match loads line with
          | Except.ok facility => some facility
          | Except.error _ => none), by simp [read_json_from_s3, he], ?_⟩
    rw [hsplit]
    rw [List.filterMap_append]
    simp only [List.filterMap_cons]
    rw [filterMap_decode_drops_bad loads bad hbad]
    rw [List.length_append,
      filterMap_decode_length loads good₁
        (fun x hx => hall x (List.mem_append_left _ hx)),
      filterMap_decode_length loads good₂
        (fun x hx => hall x (List.mem_append_right _ hx))]

theorem read_json_from_s3_counts_witness :
    read_json_from_s3 (fun _ => Except.ok (JVal.arr [JVal.num 1, JVal.num 2]))
        "dummy" = JVal.arr [JVal.num 1, JVal.num 2] ∧
    (∃ vs : List JVal, read_json_from_s3 loadsDemo "1\n1" = JVal.arr vs ∧
      vs.length = (["1", "1"] : List String).length) ∧
    (∃ vs : List JVal, read_json_from_s3 loadsDemo "1\n1\nxx" = JVal.arr vs ∧
      vs.length = (["1", "1"] : List String).length +
        ([] : List String).length) := by
  refine ⟨?_, ?_, ?_⟩
  · exact (read_json_from_s3_counts
      (fun _ => Except.ok (JVal.arr [JVal.num 1, JVal.num 2])) "dummy" "e").1
      [JVal.num 1, JVal.num 2] rfl
  · refine (read_json_from_s3_counts loadsDemo "1\n1" "Expecting value").2.1
      rfl ["1", "1"] (by decide) ?_
    intro l hl
    have hl1 : l = "1" := by simpa using hl
    subst hl1
    exact ⟨by decide, JVal.num 1, rfl⟩
  · refine (read_json_from_s3_counts loadsDemo "1\n1\nxx" "Expecting value").2.2
      rfl ["1", "1"] [] "xx" (by decide) ?_ ?_
    · intro l hl
      have hl1 : l = "1" := by simpa using hl
      subst hl1
      exact ⟨by decide, JVal.num 1, rfl⟩
    · intro v hc
      rw [show loadsDemo "xx" = Except.error "Expecting value" from rfl] at hc
      exact Except.noConfusion hc

theorem summaryEntry_error_of_lacks (f : JVal)
    (h : lacksIdOrName f = true) : ∃ e, summaryEntry f = Except.error e := by
  cases f with
  | obj fields =>
      cases hid : fields.lookup "facility_id" with
      | none => exact ⟨"KeyError", by simp [summaryEntry, hid]⟩
      | some fid =>
          cases hname : fields.lookup "facility_name" with
          | none => exact ⟨"KeyError", by simp [summaryEntry, hid, hname]⟩
          | some fname =>
              exact absurd h (by simp [lacksIdOrName, hid, hname])
  | str s => exact ⟨"TypeError", rfl⟩
  | num n => exact ⟨"TypeError", rfl⟩
  | bool b => exact ⟨"TypeError", rfl⟩
  | null => exact ⟨"TypeError", rfl⟩
  | arr elems => exact ⟨"TypeError", rfl⟩

theorem summaryEntries_error (data : List JVal)
    (h : ∃ f ∈ data, ∃ e, summaryEntry f = Except.error e) :
    ∃ e, summaryEntries data = Except.error e := by
  induction data with
  | nil => simp at h
  | cons f rest ih =>
      cases hf : summaryEntry f with
      | error e₁ => exact ⟨e₁, by simp [summaryEntries, hf]⟩
      | ok entry =>
          obtain ⟨g, hg, e, he⟩ := h
          rcases List.mem_cons.mp hg with rfl | hg'
          · rw [hf] at he
            exact Except.noConfusion he
          · obtain ⟨e₂, he₂⟩ := ih ⟨g, hg', e, he⟩
            exact ⟨e₂, by simp [summaryEntries, hf, he₂]⟩

/-- C10: `write_json_to_s3` is not atomic and has the undocumented
precondition that every element of `data` is a dict with `facility_id` and
`facility_name` keys: for any element lacking either key, the summary
construction raises after the data payload has already been stored, so
exactly one of the two output objects ends up written and the exception
propagates. -/
theorem write_json_to_s3_partial_write
    (output_bucket output_key nowIso ts : String) (data : List JVal)
    (output_filename : String)
    (h : ∃ f ∈ data, lacksIdOrName f = true) :
    (write_json_to_s3 output_bucket output_key nowIso ts data
        output_filename).writes =
      [(output_key ++ output_filename, JVal.arr data)] ∧
    (write_json_to_s3 output_bucket output_key nowIso ts data
        output_filename).err.isSome = true := by
  obtain ⟨f, hf, hl⟩ := h
  obtain ⟨e, he⟩ := summaryEntry_error_of_lacks f hl
  obtain ⟨e₂, he₂⟩ := summaryEntries_error data ⟨f, hf, e, he⟩
  constructor <;> simp [write_json_to_s3, buildSummary, he₂]

theorem write_json_to_s3_partial_write_witness :
    (write_json_to_s3 "healthcare-facility-data" "filtered/"
        "2026-10-12T00:00:00" "20261012_000000"
        [JVal.obj [("facility_id", JVal.str "FAC001")]]
        "expiring_facilities_20261012_000000.json").writes =
      [("filtered/" ++ "expiring_facilities_20261012_000000.json",
        JVal.arr [JVal.obj [("facility_id", JVal.str "FAC001")]])] ∧
    (write_json_to_s3 "healthcare-facility-data" "filtered/"
        "2026-10-12T00:00:00" "20261012_000000"
        [JVal.obj [("facility_id", JVal.str "FAC001")]]
        "expiring_facilities_20261012_000000.json").err.isSome = true :=
  write_json_to_s3_partial_write "healthcare-facility-data" "filtered/"
    "2026-10-12T00:00:00" "20261012_000000"
    [JVal.obj [("facility_id", JVal.str "FAC001")]]
    "expiring_facilities_20261012_000000.json"
    ⟨JVal.obj [("facility_id", JVal.str "FAC001")],
      List.mem_singleton.mpr rfl, rfl⟩

/-- C3: when at least one input file was listed but no facility qualifies
across the entire batch, the run stores exactly one object: the placeholder
payload (a single-element array with the no-results message); the
processing-summary object is not written in this empty case. -/
theorem process_all_files_empty_writes_placeholder
    (parseDate : String → Option Int) (today : Int)
    (nowIso ts output_bucket output_key : String)
    (inputs : List (Except String JVal))
    (hne : inputs ≠ [])
    (hagg : aggregate_filtered parseDate today nowIso inputs = []) :
    (process_all_files parseDate today nowIso ts output_bucket output_key
        inputs).writes =
      [(output_key ++ ("no_expiring_facilities_" ++ ts ++ ".json"),
        JVal.arr [empty_result nowIso])] := by
  have hlack : lacksIdOrName (empty_result nowIso) = true := rfl
  obtain ⟨e, he⟩ := summaryEntry_error_of_lacks _ hlack
  obtain ⟨e₂, he₂⟩ := summaryEntries_error [empty_result nowIso]
    ⟨empty_result nowIso, List.mem_singleton.mpr rfl, e, he⟩
  cases inputs with
  | nil => exact absurd rfl hne
  | cons i rest =>
      simp [process_all_files, hagg, write_json_to_s3, buildSummary, he₂]

theorem process_all_files_empty_writes_placeholder_witness :
    (process_all_files parseDemo 0 "2026-10-12T00:00:00" "20261012_000000"
        "healthcare-facility-data" "filtered/"
        [Except.ok (JVal.arr [])]).writes =
      [("filtered/" ++ ("no_expiring_facilities_" ++ "20261012_000000"
          ++ ".json"),
        JVal.arr [empty_result "2026-10-12T00:00:00"])] :=
  process_all_files_empty_writes_placeholder parseDemo 0
    "2026-10-12T00:00:00" "20261012_000000" "healthcare-facility-data"
    "filtered/" [Except.ok (JVal.arr [])] (by simp) rfl
